import Mathlib

/-!
Shallow embedding of `actstream/actions.py` (django-activity-stream fork):
the follow registry (`follow`, `unfollow`, `is_following`,
`set_all_email_notifications`) and the action recorder
(`action_handler`, `send_email_notifications`).

Entities are polymorphic references: a content-type kind plus a primary key.
`ContentType.objects.get_for_model(obj)` resolves to the object's kind.
The relational store is the pair of tables (`Follow` rows, `Action` rows);
Django's ORM calls are embedded by their documented semantics:
`get_or_create` matches on all supplied field values and inserts when no row
matches; `filter(...).delete()` removes every matching row;
`filter(...).count()` counts matching rows.

Exceptions are embedded as `Except` values whose error carries the store at
the moment of the raise, so that "raises and leaves the store unchanged" is
a provable statement about the embedding.
-/

namespace Actstream

/-- A model instance: its content-type kind and its primary key (`obj.pk`). -/
structure Entity where
  kind : Nat
  pk : Nat
deriving DecidableEq, Repr

/-- `ContentType.objects.get_for_model(obj)`: the content-type id of a model. -/
def get_for_model (e : Entity) : Nat := e.kind

/-- A row of the `Follow` table: user id, followed object id and content type,
`actor_only` and `send_email` flags. -/
structure Follow where
  user : Nat
  objectId : Nat
  contentType : Nat
  actorOnly : Bool
  sendEmail : Bool
deriving DecidableEq, Repr

/-- A row of the `Action` table, as built by `action_handler`. -/
structure Action where
  actor_content_type : Nat
  actor_object_id : Nat
  verb : String
  public : Bool
  description : Option String
  timestamp : Nat
  target_object_id : Option Nat
  target_content_type : Option Nat
  action_object_object_id : Option Nat
  action_object_content_type : Option Nat
  data : Option (List (String × String))
deriving DecidableEq, Repr

/-- The relational store: the `Follow` table and the `Action` table. -/
structure Store where
  follows : List Follow
  actions : List Action
deriving DecidableEq, Repr

/-- The single error kind raised by this module. -/
inductive ActErr where
  | unregisteredEntity : ActErr
deriving DecidableEq, Repr

/-- A `<user> started/stopped following <object>` signal emission
(`action.send(user, verb=..., target=obj)`). -/
structure SignalEvent where
  sender : Nat
  verb : String
  target : Entity
deriving DecidableEq, Repr

/-- One entry of the batch handed to `send_mass_mail`:
(subject, message, from-address, recipient list). -/
structure Email where
  subject : String
  body : String
  from_addr : String
  recipients : List String
deriving DecidableEq, Repr

/-- External collaborators of the action recorder: per-user profile flag
`get_profile().email_notification`, per-user `email` address, the template
renderer applied to the two `email_notification` templates with the action
as context, and the configured `CONTACT_EMAIL` from-address. -/
structure Env where
  email_notification_pref : Nat → Bool
  email_addr : Nat → String
  render_subject : Action → String
  render_body : Action → String
  contact_email : String

/-- Modelled from the spec: `check_actionable_model` lives in
`actstream/exceptions.py`, which is not part of the given source. Per the
spec's error-handling design it raises the single error kind
`UnregisteredEntityError` exactly when the entity's kind is not recognized
by the entity registry, and does nothing otherwise. The registry is the
list of registered entity kinds. -/
def check_actionable_model (reg : List Nat) (e : Entity) : Except ActErr Unit :=
  if e.kind ∈ reg then Except.ok () else Except.error ActErr.unregisteredEntity

/-- A fixed collaborator environment for running the operations on concrete
inputs: every user's profile enables email notification, user `u`'s address
is the string of `u` letters `a` (distinct users, distinct addresses), and
both templates render the action's verb. -/
def sample_env : Env :=
  { email_notification_pref := fun _ => true
    email_addr := fun u => String.mk (List.replicate u 'a')
    render_subject := fun a => a.verb
    render_body := fun a => a.verb
    contact_email := "contact" }

/-- The lookup predicate of `follow`'s `get_or_create` call: it is given
`user`, `object_id`, `content_type`, `actor_only` and `send_email`, so a row
matches only when all five fields agree. -/
def follow_lookup (user : Nat) (obj : Entity) (actor_only email_notification : Bool)
    (f : Follow) : Bool :=
  f.user == user && f.objectId == obj.pk && f.contentType == get_for_model obj &&
    f.actorOnly == actor_only && f.sendEmail == email_notification

/-- The filter predicate used by `unfollow` and `is_following`:
`user`, `object_id` and `content_type` only. -/
def follow_filter (user : Nat) (obj : Entity) (f : Follow) : Bool :=
  f.user == user && f.objectId == obj.pk && f.contentType == get_for_model obj

/-- `follow(user, obj, send_action, actor_only, email_notification)`:
checks the object is actionable, upserts a `Follow` row via `get_or_create`
on all five field values, and sends a "started following" action signal when
a row was created and `send_action` holds. Returns the row, the store and the
emitted signals. -/
def follow (reg : List Nat) (s : Store) (user : Nat) (obj : Entity)
    (send_action actor_only email_notification : Bool) :
    Except (ActErr × Store) (Follow × Store × List SignalEvent) :=
  match check_actionable_model reg obj with
  | Except.error e => Except.error (e, s)
  | Except.ok _ =>
    match s.follows.find? (follow_lookup user obj actor_only email_notification) with
    | some f => Except.ok (f, s, [])
    | none =>
      let f : Follow :=
        { user := user, objectId := obj.pk, contentType := get_for_model obj,
          actorOnly := actor_only, sendEmail := email_notification }
      let s2 : Store := { s with follows := s.follows ++ [f] }
      let events : List SignalEvent :=
        if send_action then [{ sender := user, verb := "started following", target := obj }]
        else []
      Except.ok (f, s2, events)

/-- `set_all_email_notifications(user, enable)`: iterates over the user's
`Follow` rows, sets `send_email` on each and saves it. -/
def set_all_email_notifications (s : Store) (user : Nat) (enable : Bool) : Store :=
  { s with
    follows := s.follows.map (fun f =>
      if f.user == user then { f with sendEmail := enable } else f) }

/-- `unfollow(user, obj, send_action)`: checks the object is actionable,
deletes every matching `Follow` row, and sends a "stopped following" action
signal when `send_action` holds — whether or not any row was deleted. -/
def unfollow (reg : List Nat) (s : Store) (user : Nat) (obj : Entity)
    (send_action : Bool) : Except (ActErr × Store) (Store × List SignalEvent) :=
  match check_actionable_model reg obj with
  | Except.error e => Except.error (e, s)
  | Except.ok _ =>
    let s2 : Store := { s with follows := s.follows.filter (fun f => !follow_filter user obj f) }
    let events : List SignalEvent :=
      if send_action then [{ sender := user, verb := "stopped following", target := obj }]
      else []
    Except.ok (s2, events)

/-- `is_following(user, obj)`: checks the object is actionable and returns
whether the count of matching `Follow` rows is nonzero. -/
def is_following (reg : List Nat) (s : Store) (user : Nat) (obj : Entity) :
    Except (ActErr × Store) Bool :=
  match check_actionable_model reg obj with
  | Except.error e => Except.error (e, s)
  | Except.ok _ =>
    Except.ok ((s.follows.filter (follow_filter user obj)).length != 0)

/-- Modelled from the spec: `action_followers` lives in `actstream/models.py`,
which is not part of the given source. Per the spec, it finds all users
following the action's actor; here, the users owning a `Follow` row whose
content type and object id are the action's actor reference, each listed
once. -/
def action_followers (s : Store) (a : Action) : List Nat :=
  ((s.follows.filter (fun f =>
      f.contentType == a.actor_content_type && f.objectId == a.actor_object_id)).map
    Follow.user).dedup

/-- `send_email_notifications(action)`: takes the followers of the action's
actor, keeps those whose profile enables email notification, renders the
subject (right-stripped) and body templates with the action as context, and
hands `send_mass_mail` one (subject, body, from, [recipient]) tuple per
remaining user. -/
def send_email_notifications (env : Env) (s : Store) (a : Action) : List Email :=
  let users := (action_followers s a).filter env.email_notification_pref
  let subject := (env.render_subject a).trimRight
  let message := env.render_body a
  users.map (fun u =>
    { subject := subject, body := message, from_addr := env.contact_email,
      recipients := [env.email_addr u] })

/-- The body of `action_handler`'s role loop for one of `target` /
`action_object`: when the keyword is present, check the object is actionable
and record its object id and content type on the action. -/
def set_role (reg : List Nat) (isTarget : Bool) (a : Action) (obj? : Option Entity) :
    Except ActErr Action :=
  match obj? with
  | none => Except.ok a
  | some obj =>
    match check_actionable_model reg obj with
    | Except.error e => Except.error e
    | Except.ok _ =>
      if isTarget then
        Except.ok { a with target_object_id := some obj.pk,
                           target_content_type := some (get_for_model obj) }
      else
        Except.ok { a with action_object_object_id := some obj.pk,
                           action_object_content_type := some (get_for_model obj) }

/-- Result of a successful `action_handler` call: the saved row, the store
after the save, the argument of each `send_email_notifications` call made,
and the emails those calls dispatched. -/
structure HandlerResult where
  newaction : Action
  store : Store
  notify_calls : List Action
  emails : List Email
deriving Repr

/-- The `Action(...)` constructor call inside `action_handler`: actor
reference from the sender, `unicode(verb)`, `bool(kwargs.pop('public',
True))`, `kwargs.pop('description', None)`, `kwargs.pop('timestamp', now())`,
and no role references or data yet. -/
def new_action_record (verb : String) (sender : Entity) (kw_public : Option Bool)
    (kw_description : Option String) (kw_timestamp : Option Nat)
    (now_time : Nat) : Action :=
  { actor_content_type := get_for_model sender
    actor_object_id := sender.pk
    verb := verb
    public := kw_public.getD true
    description := kw_description
    timestamp := kw_timestamp.getD now_time
    target_object_id := none
    target_content_type := none
    action_object_object_id := none
    action_object_content_type := none
    data := none }

/-- The `if settings.USE_JSONFIELD and len(kwargs): newaction.data = kwargs`
step of `action_handler`. `kwargs` at that program point is the keyword dict
minus the reserved keys and minus the `signal` key popped at entry, embedded
here as the filter of `kw_rest` (which may still contain a `signal` key). -/
def action_data_attach (use_jsonfield : Bool) (kw_rest : List (String × String))
    (a : Action) : Action :=
  let kwargs := kw_rest.filter (fun kv => kv.fst != "signal")
  if use_jsonfield && !kwargs.isEmpty then { a with data := some kwargs } else a

/-- `action_handler(verb, **kwargs)`: pops `signal` from the keyword dict,
pops the `sender` and checks it is actionable, builds the `Action` row with
defaults `public=True`, `description=None`, `timestamp=now()`, records the
`target` / `action_object` references (each checked) when present, attaches
the remaining keyword data as `data` when `USE_JSONFIELD` is set and the
remainder is nonempty, saves the row, then calls `send_email_notifications`
on it. The explicit parameters embed the reserved keys of the keyword dict;
`kw_rest` is the rest of the dict, which may still contain a `signal` key
(the pop of `signal` is embedded inside `action_data_attach`). -/
def action_handler (reg : List Nat) (env : Env) (use_jsonfield : Bool)
    (now_time : Nat) (s : Store) (verb : String) (sender : Entity)
    (kw_public : Option Bool) (kw_description : Option String)
    (kw_timestamp : Option Nat) (kw_target kw_action_object : Option Entity)
    (kw_rest : List (String × String)) : Except (ActErr × Store) HandlerResult :=
  match check_actionable_model reg sender with
  | Except.error e => Except.error (e, s)
  | Except.ok _ =>
    match set_role reg true
        (new_action_record verb sender kw_public kw_description kw_timestamp now_time)
        kw_target with
    | Except.error e => Except.error (e, s)
    | Except.ok a1 =>
      match set_role reg false a1 kw_action_object with
      | Except.error e => Except.error (e, s)
      | Except.ok a2 =>
        let a3 : Action := action_data_attach use_jsonfield kw_rest a2
        let s2 : Store := { s with actions := s.actions ++ [a3] }
        Except.ok
          { newaction := a3, store := s2, notify_calls := [a3],
            emails := send_email_notifications env s2 a3 }

/-- The number of `Follow` rows in the store for a (user, entity) pair,
regardless of flags: the rows counted by `is_following`. -/
def follows_for_pair (s : Store) (user : Nat) (obj : Entity) : Nat :=
  (s.follows.filter (follow_filter user obj)).length

/-- A call raised an exception. -/
def raises {α : Type} (r : Except (ActErr × Store) α) : Prop :=
  ∃ e st, r = Except.error (e, st)

/-- Whenever the call raised, the store it left behind is the input store. -/
def raise_preserves {α : Type} (s : Store) (r : Except (ActErr × Store) α) : Prop :=
  ∀ e st, r = Except.error (e, st) → st = s

/-! ### Helper lemmas -/

lemma check_actionable_model_ok {reg : List Nat} {e : Entity} (h : e.kind ∈ reg) :
    check_actionable_model reg e = Except.ok () := by
  simp [check_actionable_model, h]

lemma check_actionable_model_ok_iff {reg : List Nat} {e : Entity} :
    check_actionable_model reg e = Except.ok () ↔ e.kind ∈ reg := by
  unfold check_actionable_model
  split <;> simp_all

lemma follow_filter_of_lookup {u : Nat} {o : Entity} {ao en : Bool} {f : Follow}
    (h : follow_lookup u o ao en f = true) : follow_filter u o f = true := by
  simp only [follow_lookup, Bool.and_eq_true] at h
  simp only [follow_filter, Bool.and_eq_true]
  exact ⟨⟨h.1.1.1.1, h.1.1.1.2⟩, h.1.1.2⟩

lemma follow_lookup_self (u : Nat) (o : Entity) (ao en : Bool) :
    follow_lookup u o ao en
      { user := u, objectId := o.pk, contentType := get_for_model o,
        actorOnly := ao, sendEmail := en } = true := by
  simp [follow_lookup]

/-! ### C1 -/

/-- C1: the claim "calling follow twice (with any flag arguments) leaves
exactly one FollowRelationship for that pair" is false: starting from an
empty store, `follow(7, e, actor_only=True)` then `follow(7, e,
actor_only=False)` leaves two rows for the pair (7, e), because
`get_or_create`'s lookup includes the `actor_only` and `send_email` flag
values. -/
theorem C1_counterexample :
    ¬ (((follow [0] { follows := [], actions := [] } 7 { kind := 0, pk := 1 } true true false).bind
        (fun r => follow [0] r.2.1 7 { kind := 0, pk := 1 } true false false)).map
        (fun r => follows_for_pair r.2.1 7 { kind := 0, pk := 1 }) = Except.ok 1) := by
  intro h
  have h2 : (Except.ok 2 : Except (ActErr × Store) Nat) = Except.ok 1 := h
  simp at h2

/-- C1 (amended): calling `follow` twice with the SAME flag arguments leaves
exactly one relationship for the pair when none existed before; the second
call returns the store of the first unchanged. Per-pair uniqueness is not
enforced when the flag arguments differ between calls. -/
theorem C1_follow_same_flags_idempotent
    (reg : List Nat) (s : Store) (user : Nat) (obj : Entity) (sa ao en : Bool)
    (f1 : Follow) (s1 : Store) (ev1 : List SignalEvent)
    (h : obj.kind ∈ reg)
    (h1 : follow reg s user obj sa ao en = Except.ok (f1, s1, ev1)) :
    (∃ f2, follow reg s1 user obj sa ao en = Except.ok (f2, s1, [])) ∧
    (follows_for_pair s user obj = 0 → follows_for_pair s1 user obj = 1) := by
  have hc : check_actionable_model reg obj = Except.ok () := check_actionable_model_ok h
  unfold follow at h1 ⊢
  rw [hc] at h1 ⊢
  cases hf : s.follows.find? (follow_lookup user obj ao en) with
  | some f =>
    rw [hf] at h1
    simp only [Except.ok.injEq, Prod.mk.injEq] at h1
    obtain ⟨rfl, rfl, rfl⟩ := h1
    constructor
    · exact ⟨f, by rw [hf]⟩
    · intro h0
      exfalso
      have hmem : f ∈ s.follows := List.mem_of_find?_eq_some hf
      have hl : follow_lookup user obj ao en f = true := List.find?_some hf
      have hff : follow_filter user obj f = true := follow_filter_of_lookup hl
      have : f ∈ s.follows.filter (follow_filter user obj) :=
        List.mem_filter.mpr ⟨hmem, hff⟩
      have hnil : s.follows.filter (follow_filter user obj) = [] :=
        List.length_eq_zero.mp h0
      rw [hnil] at this
      exact absurd this (List.not_mem_nil f)
  | none =>
    rw [hf] at h1
    simp only [Except.ok.injEq, Prod.mk.injEq] at h1
    obtain ⟨rfl, rfl, rfl⟩ := h1
    have hself := follow_lookup_self user obj ao en
    have hfind :
        ({ s with follows := s.follows ++
            [{ user := user, objectId := obj.pk, contentType := get_for_model obj,
               actorOnly := ao, sendEmail := en }] } : Store).follows.find?
          (follow_lookup user obj ao en) =
        some { user := user, objectId := obj.pk, contentType := get_for_model obj,
               actorOnly := ao, sendEmail := en } := by
      simp only [List.find?_append, hf, Option.none_or]
      simp [List.find?, hself]
    constructor
    · exact ⟨{ user := user, objectId := obj.pk, contentType := get_for_model obj,
               actorOnly := ao, sendEmail := en }, by rw [hfind]⟩
    · intro h0
      have hff := follow_filter_of_lookup hself
      simp only [follows_for_pair, List.filter_append] at *
      rw [List.length_append, h0]
      simp [List.filter, hff]

/-- Witness for C1 (amended) at a concrete input. -/
theorem C1_follow_same_flags_idempotent_witness :
    (∃ f2, follow [0]
        { follows := [{ user := 7, objectId := 1, contentType := 0,
                        actorOnly := true, sendEmail := false }], actions := [] }
        7 { kind := 0, pk := 1 } true true false =
      Except.ok (f2,
        { follows := [{ user := 7, objectId := 1, contentType := 0,
                        actorOnly := true, sendEmail := false }], actions := [] }, [])) ∧
    (follows_for_pair { follows := [], actions := [] } 7 { kind := 0, pk := 1 } = 0 →
      follows_for_pair
        { follows := [{ user := 7, objectId := 1, contentType := 0,
                        actorOnly := true, sendEmail := false }], actions := [] }
        7 { kind := 0, pk := 1 } = 1) :=
  C1_follow_same_flags_idempotent [0] { follows := [], actions := [] } 7
    { kind := 0, pk := 1 } true true false
    { user := 7, objectId := 1, contentType := 0, actorOnly := true, sendEmail := false }
    { follows := [{ user := 7, objectId := 1, contentType := 0,
                    actorOnly := true, sendEmail := false }], actions := [] }
    [{ sender := 7, verb := "started following", target := { kind := 0, pk := 1 } }]
    (by decide) (by rfl)

lemma follow_ok_find? (reg : List Nat) (s : Store) (user : Nat) (obj : Entity)
    (sa ao en : Bool) (f1 : Follow) (s1 : Store) (ev1 : List SignalEvent)
    (h : obj.kind ∈ reg)
    (h1 : follow reg s user obj sa ao en = Except.ok (f1, s1, ev1)) :
    ∃ f, s1.follows.find? (follow_lookup user obj ao en) = some f := by
  have hc : check_actionable_model reg obj = Except.ok () := check_actionable_model_ok h
  unfold follow at h1
  rw [hc] at h1
  cases hf : s.follows.find? (follow_lookup user obj ao en) with
  | some f =>
    rw [hf] at h1
    simp only [Except.ok.injEq, Prod.mk.injEq] at h1
    obtain ⟨rfl, rfl, rfl⟩ := h1
    exact ⟨f, hf⟩
  | none =>
    rw [hf] at h1
    simp only [Except.ok.injEq, Prod.mk.injEq] at h1
    obtain ⟨rfl, rfl, rfl⟩ := h1
    refine ⟨{ user := user, objectId := obj.pk, contentType := get_for_model obj,
              actorOnly := ao, sendEmail := en }, ?_⟩
    simp only [List.find?_append, hf, Option.none_or]
    simp [List.find?, follow_lookup_self]

/-! ### C3 -/

/-- C3: for a registered entity, `follow` then `is_following` returns `true`,
and `unfollow` then `is_following` returns `false`. -/
theorem C3_follow_unfollow_is_following
    (reg : List Nat) (s : Store) (user : Nat) (obj : Entity)
    (sa ao en sa2 : Bool) (f1 : Follow) (s1 : Store) (ev1 : List SignalEvent)
    (s2 : Store) (ev2 : List SignalEvent)
    (h : obj.kind ∈ reg)
    (h1 : follow reg s user obj sa ao en = Except.ok (f1, s1, ev1))
    (h2 : unfollow reg s user obj sa2 = Except.ok (s2, ev2)) :
    is_following reg s1 user obj = Except.ok true ∧
    is_following reg s2 user obj = Except.ok false := by
  have hc : check_actionable_model reg obj = Except.ok () := check_actionable_model_ok h
  constructor
  · obtain ⟨f, hfind⟩ := follow_ok_find? reg s user obj sa ao en f1 s1 ev1 h h1
    have hmem : f ∈ s1.follows := List.mem_of_find?_eq_some hfind
    have hff : follow_filter user obj f = true :=
      follow_filter_of_lookup (List.find?_some hfind)
    have hne : s1.follows.filter (follow_filter user obj) ≠ [] :=
      List.ne_nil_of_mem (List.mem_filter.mpr ⟨hmem, hff⟩)
    have hlen : (s1.follows.filter (follow_filter user obj)).length ≠ 0 :=
      fun hl => hne (List.length_eq_zero.mp hl)
    unfold is_following
    rw [hc]
    simp only [Except.ok.injEq]
    exact bne_iff_ne.mpr hlen
  · unfold unfollow at h2
    rw [hc] at h2
    simp only [Except.ok.injEq, Prod.mk.injEq] at h2
    obtain ⟨rfl, rfl⟩ := h2
    unfold is_following
    rw [hc]
    have hnil :
        (s.follows.filter (fun f => !follow_filter user obj f)).filter
          (follow_filter user obj) = [] := by
      refine List.filter_eq_nil_iff.mpr ?_
      intro f hf
      have := (List.mem_filter.mp hf).2
      simp only [Bool.not_eq_true'] at this
      simp [this]
    simp only [hnil]
    rfl

/-- Witness for C3 at a concrete input. -/
theorem C3_witness :
    is_following [0]
        { follows := [{ user := 7, objectId := 1, contentType := 0,
                        actorOnly := true, sendEmail := false }], actions := [] }
        7 { kind := 0, pk := 1 } = Except.ok true ∧
    is_following [0] { follows := [], actions := [] } 7 { kind := 0, pk := 1 } =
      Except.ok false :=
  C3_follow_unfollow_is_following [0] { follows := [], actions := [] } 7
    { kind := 0, pk := 1 } true true false false
    { user := 7, objectId := 1, contentType := 0, actorOnly := true, sendEmail := false }
    { follows := [{ user := 7, objectId := 1, contentType := 0,
                    actorOnly := true, sendEmail := false }], actions := [] }
    [{ sender := 7, verb := "started following", target := { kind := 0, pk := 1 } }]
    { follows := [], actions := [] } []
    (by decide) (by rfl) (by rfl)

/-! ### C4 -/

/-- C4: the claim "a repeated follow call for the same (user, entity) pair
emits no event" is false: after `follow(7, e, actor_only=True)`, the call
`follow(7, e, actor_only=False)` is a repeated follow for the pair (7, e)
yet emits one (not zero) "started following" event, because the differing
`actor_only` value makes `get_or_create` create a second row. -/
theorem C4_counterexample :
    ¬ (((follow [0] { follows := [], actions := [] } 7 { kind := 0, pk := 1 } true true false).bind
        (fun r => follow [0] r.2.1 7 { kind := 0, pk := 1 } true false false)).map
        (fun r => r.2.2.length) = Except.ok 0) := by
  intro h
  have h2 : (Except.ok 1 : Except (ActErr × Store) Nat) = Except.ok 0 := h
  simp at h2

/-- C4 (amended): a `follow(send_action=True)` call that finds no row under
`get_or_create`'s full lookup (so it creates a first-time relationship)
emits exactly one "started following" event whose target is the entity, and
a repeated `follow` call with the SAME flag arguments emits no event. -/
theorem C4_first_follow_emits_once
    (reg : List Nat) (s : Store) (user : Nat) (obj : Entity) (ao en : Bool)
    (f1 : Follow) (s1 : Store) (ev1 : List SignalEvent)
    (f2 : Follow) (s2 : Store) (ev2 : List SignalEvent)
    (h : obj.kind ∈ reg)
    (h0 : s.follows.find? (follow_lookup user obj ao en) = none)
    (h1 : follow reg s user obj true ao en = Except.ok (f1, s1, ev1))
    (h2 : follow reg s1 user obj true ao en = Except.ok (f2, s2, ev2)) :
    ev1 = [{ sender := user, verb := "started following", target := obj }] ∧
    ev2 = [] := by
  have hc : check_actionable_model reg obj = Except.ok () := check_actionable_model_ok h
  obtain ⟨f, hfind⟩ := follow_ok_find? reg s user obj true ao en f1 s1 ev1 h h1
  unfold follow at h1 h2
  rw [hc, h0] at h1
  rw [hc, hfind] at h2
  simp only [Except.ok.injEq, Prod.mk.injEq] at h1 h2
  exact ⟨h1.2.2.symm, h2.2.2.symm⟩

/-- Witness for C4 (amended) at a concrete input. -/
theorem C4_first_follow_emits_once_witness :
    ([{ sender := 7, verb := "started following",
        target := ({ kind := 0, pk := 1 } : Entity) }] : List SignalEvent) =
      [{ sender := 7, verb := "started following", target := { kind := 0, pk := 1 } }] ∧
    ([] : List SignalEvent) = [] :=
  C4_first_follow_emits_once [0] { follows := [], actions := [] } 7
    { kind := 0, pk := 1 } true false
    { user := 7, objectId := 1, contentType := 0, actorOnly := true, sendEmail := false }
    { follows := [{ user := 7, objectId := 1, contentType := 0,
                    actorOnly := true, sendEmail := false }], actions := [] }
    [{ sender := 7, verb := "started following", target := { kind := 0, pk := 1 } }]
    { user := 7, objectId := 1, contentType := 0, actorOnly := true, sendEmail := false }
    { follows := [{ user := 7, objectId := 1, contentType := 0,
                    actorOnly := true, sendEmail := false }], actions := [] }
    []
    (by decide) (by rfl) (by rfl) (by rfl)

/-! ### C9 -/

/-- C9: `unfollow(send_action=True)` emits the "stopped following" event
unconditionally — in particular also when no matching relationship existed,
since the input store is arbitrary (the witness runs it on an empty store). -/
theorem C9_unfollow_signal_unconditional (reg : List Nat) (s : Store) (user : Nat)
    (obj : Entity) (h : obj.kind ∈ reg) :
    ∃ s2, unfollow reg s user obj true =
      Except.ok (s2, [{ sender := user, verb := "stopped following", target := obj }]) := by
  have hc : check_actionable_model reg obj = Except.ok () := check_actionable_model_ok h
  unfold unfollow
  rw [hc]
  exact ⟨_, rfl⟩

/-- Witness for C9: on an empty store (no relationship exists), `unfollow`
with `send_action=True` still emits the "stopped following" event. -/
theorem C9_unfollow_signal_unconditional_witness :
    ∃ s2, unfollow [0] { follows := [], actions := [] } 7 { kind := 0, pk := 1 } true =
      Except.ok (s2,
        [{ sender := 7, verb := "stopped following", target := { kind := 0, pk := 1 } }]) :=
  C9_unfollow_signal_unconditional [0] { follows := [], actions := [] } 7
    { kind := 0, pk := 1 } (by decide)

/-! ### C2 -/

lemma check_actionable_model_err {reg : List Nat} {e : Entity} (h : e.kind ∉ reg) :
    check_actionable_model reg e = Except.error ActErr.unregisteredEntity := by
  simp [check_actionable_model, h]

lemma set_role_none (reg : List Nat) (it : Bool) (a : Action) :
    set_role reg it a none = Except.ok a := rfl

lemma set_role_some_err {reg : List Nat} {t : Entity} (it : Bool) (a : Action)
    (h : t.kind ∉ reg) :
    set_role reg it a (some t) = Except.error ActErr.unregisteredEntity := by
  simp [set_role, check_actionable_model_err h]

lemma set_role_some_ok {reg : List Nat} {t : Entity} (it : Bool) (a : Action)
    (h : t.kind ∈ reg) : ∃ a', set_role reg it a (some t) = Except.ok a' := by
  cases it
  · refine ⟨{ a with
              action_object_object_id := some t.pk
              action_object_content_type := some (get_for_model t) }, ?_⟩
    simp [set_role, check_actionable_model_ok h]
  · refine ⟨{ a with
              target_object_id := some t.pk
              target_content_type := some (get_for_model t) }, ?_⟩
    simp [set_role, check_actionable_model_ok h]

lemma follow_raises_iff (reg : List Nat) (s : Store) (user : Nat) (obj : Entity)
    (sa ao en : Bool) :
    raises (follow reg s user obj sa ao en) ↔ obj.kind ∉ reg := by
  by_cases hm : obj.kind ∈ reg
  · simp only [hm, not_true_eq_false, iff_false]
    rintro ⟨e, st, heq⟩
    unfold follow at heq
    rw [check_actionable_model_ok hm] at heq
    cases hf : s.follows.find? (follow_lookup user obj ao en) <;>
      rw [hf] at heq <;> exact Except.noConfusion heq
  · simp only [hm, not_false_iff, iff_true]
    refine ⟨ActErr.unregisteredEntity, s, ?_⟩
    unfold follow
    rw [check_actionable_model_err hm]

lemma follow_raise_preserves (reg : List Nat) (s : Store) (user : Nat) (obj : Entity)
    (sa ao en : Bool) : raise_preserves s (follow reg s user obj sa ao en) := by
  intro e st heq
  unfold follow at heq
  by_cases hm : obj.kind ∈ reg
  · rw [check_actionable_model_ok hm] at heq
    cases hf : s.follows.find? (follow_lookup user obj ao en) <;>
      rw [hf] at heq <;> exact Except.noConfusion heq
  · rw [check_actionable_model_err hm] at heq
    simp only [Except.error.injEq, Prod.mk.injEq] at heq
    exact heq.2.symm

lemma unfollow_raises_iff (reg : List Nat) (s : Store) (user : Nat) (obj : Entity)
    (sa : Bool) : raises (unfollow reg s user obj sa) ↔ obj.kind ∉ reg := by
  by_cases hm : obj.kind ∈ reg
  · simp only [hm, not_true_eq_false, iff_false]
    rintro ⟨e, st, heq⟩
    unfold unfollow at heq
    rw [check_actionable_model_ok hm] at heq
    exact Except.noConfusion heq
  · simp only [hm, not_false_iff, iff_true]
    refine ⟨ActErr.unregisteredEntity, s, ?_⟩
    unfold unfollow
    rw [check_actionable_model_err hm]

lemma unfollow_raise_preserves (reg : List Nat) (s : Store) (user : Nat) (obj : Entity)
    (sa : Bool) : raise_preserves s (unfollow reg s user obj sa) := by
  intro e st heq
  unfold unfollow at heq
  by_cases hm : obj.kind ∈ reg
  · rw [check_actionable_model_ok hm] at heq
    exact Except.noConfusion heq
  · rw [check_actionable_model_err hm] at heq
    simp only [Except.error.injEq, Prod.mk.injEq] at heq
    exact heq.2.symm

lemma is_following_raises_iff (reg : List Nat) (s : Store) (user : Nat) (obj : Entity) :
    raises (is_following reg s user obj) ↔ obj.kind ∉ reg := by
  by_cases hm : obj.kind ∈ reg
  · simp only [hm, not_true_eq_false, iff_false]
    rintro ⟨e, st, heq⟩
    unfold is_following at heq
    rw [check_actionable_model_ok hm] at heq
    exact Except.noConfusion heq
  · simp only [hm, not_false_iff, iff_true]
    refine ⟨ActErr.unregisteredEntity, s, ?_⟩
    unfold is_following
    rw [check_actionable_model_err hm]

lemma is_following_raise_preserves (reg : List Nat) (s : Store) (user : Nat)
    (obj : Entity) : raise_preserves s (is_following reg s user obj) := by
  intro e st heq
  unfold is_following at heq
  by_cases hm : obj.kind ∈ reg
  · rw [check_actionable_model_ok hm] at heq
    exact Except.noConfusion heq
  · rw [check_actionable_model_err hm] at heq
    simp only [Except.error.injEq, Prod.mk.injEq] at heq
    exact heq.2.symm

lemma action_handler_raises_iff (reg : List Nat) (env : Env) (ujf : Bool) (nt : Nat)
    (s : Store) (verb : String) (sender : Entity) (kp : Option Bool)
    (kd : Option String) (kt : Option Nat) (ktgt kao : Option Entity)
    (krest : List (String × String)) :
    raises (action_handler reg env ujf nt s verb sender kp kd kt ktgt kao krest) ↔
      (sender.kind ∉ reg ∨ (∃ t, ktgt = some t ∧ t.kind ∉ reg) ∨
        (∃ o, kao = some o ∧ o.kind ∉ reg)) := by
  by_cases hs : sender.kind ∈ reg
  · by_cases htgt : ∃ t, ktgt = some t ∧ t.kind ∉ reg
    · simp only [hs, not_true_eq_false, false_or, htgt, true_or, iff_true]
      obtain ⟨t, rfl, ht⟩ := htgt
      exact ⟨ActErr.unregisteredEntity, s,
        by simp [action_handler, check_actionable_model_ok hs, set_role_some_err _ _ ht]⟩
    · by_cases hao : ∃ o, kao = some o ∧ o.kind ∉ reg
      · simp only [hs, not_true_eq_false, false_or, htgt, hao, or_true, iff_true]
        obtain ⟨o, rfl, ho⟩ := hao
        refine ⟨ActErr.unregisteredEntity, s, ?_⟩
        cases ktgt with
        | none =>
          simp [action_handler, check_actionable_model_ok hs, set_role_none,
            set_role_some_err _ _ ho]
        | some t =>
          have ht : t.kind ∈ reg := by
            by_contra hc
            exact htgt ⟨t, rfl, hc⟩
          obtain ⟨a1, ha1⟩ := set_role_some_ok true
            (new_action_record verb sender kp kd kt nt) ht
          simp [action_handler, check_actionable_model_ok hs, ha1,
            set_role_some_err _ _ ho]
      · simp only [hs, not_true_eq_false, false_or, htgt, hao, or_false, iff_false]
        rintro ⟨e, st, heq⟩
        have hstep1 : ∃ a1, set_role reg true
            (new_action_record verb sender kp kd kt nt) ktgt = Except.ok a1 := by
          cases ktgt with
          | none => exact ⟨_, rfl⟩
          | some t =>
            have ht : t.kind ∈ reg := by
              by_contra hc
              exact htgt ⟨t, rfl, hc⟩
            exact set_role_some_ok true _ ht
        obtain ⟨a1, ha1⟩ := hstep1
        have hstep2 : ∃ a2, set_role reg false a1 kao = Except.ok a2 := by
          cases kao with
          | none => exact ⟨_, rfl⟩
          | some o =>
            have ho : o.kind ∈ reg := by
              by_contra hc
              exact hao ⟨o, rfl, hc⟩
            exact set_role_some_ok false _ ho
        obtain ⟨a2, ha2⟩ := hstep2
        simp only [action_handler, check_actionable_model_ok hs, ha1, ha2] at heq
        exact Except.noConfusion heq
  · simp only [hs, not_false_iff, true_or, iff_true]
    exact ⟨ActErr.unregisteredEntity, s,
      by simp [action_handler, check_actionable_model_err hs]⟩

lemma action_handler_raise_preserves (reg : List Nat) (env : Env) (ujf : Bool)
    (nt : Nat) (s : Store) (verb : String) (sender : Entity) (kp : Option Bool)
    (kd : Option String) (kt : Option Nat) (ktgt kao : Option Entity)
    (krest : List (String × String)) :
    raise_preserves s (action_handler reg env ujf nt s verb sender kp kd kt ktgt kao krest) := by
  intro e st heq
  cases hchk : check_actionable_model reg sender with
  | error e0 =>
    simp only [action_handler, hchk, Except.error.injEq, Prod.mk.injEq] at heq
    exact heq.2.symm
  | ok u =>
    cases h1 : set_role reg true (new_action_record verb sender kp kd kt nt) ktgt with
    | error e1 =>
      simp only [action_handler, hchk, h1, Except.error.injEq, Prod.mk.injEq] at heq
      exact heq.2.symm
    | ok a1 =>
      cases h2 : set_role reg false a1 kao with
      | error e2 =>
        simp only [action_handler, hchk, h1, h2, Except.error.injEq, Prod.mk.injEq] at heq
        exact heq.2.symm
      | ok a2 =>
        simp only [action_handler, hchk, h1, h2] at heq
        exact Except.noConfusion heq

/-- C2: each of `follow`, `unfollow`, `is_following` and `action_handler`
raises `UnregisteredEntityError` if and only if some supplied entity (the
followed entity, or the actor / target / action_object) has an unregistered
kind, and whenever one of them raises, the store it leaves behind is the
input store — nothing was created, modified or deleted. -/
theorem C2_unregistered_error (reg : List Nat) (env : Env) (ujf : Bool) (nt : Nat)
    (s : Store) (user : Nat) (obj : Entity) (sa ao en sa2 : Bool) (verb : String)
    (sender : Entity) (kp : Option Bool) (kd : Option String) (kt : Option Nat)
    (ktgt kao : Option Entity) (krest : List (String × String)) :
    (raises (follow reg s user obj sa ao en) ↔ obj.kind ∉ reg) ∧
    raise_preserves s (follow reg s user obj sa ao en) ∧
    (raises (unfollow reg s user obj sa2) ↔ obj.kind ∉ reg) ∧
    raise_preserves s (unfollow reg s user obj sa2) ∧
    (raises (is_following reg s user obj) ↔ obj.kind ∉ reg) ∧
    raise_preserves s (is_following reg s user obj) ∧
    (raises (action_handler reg env ujf nt s verb sender kp kd kt ktgt kao krest) ↔
      (sender.kind ∉ reg ∨ (∃ t, ktgt = some t ∧ t.kind ∉ reg) ∨
        (∃ o, kao = some o ∧ o.kind ∉ reg))) ∧
    raise_preserves s (action_handler reg env ujf nt s verb sender kp kd kt ktgt kao krest) :=
  ⟨follow_raises_iff reg s user obj sa ao en,
   follow_raise_preserves reg s user obj sa ao en,
   unfollow_raises_iff reg s user obj sa2,
   unfollow_raise_preserves reg s user obj sa2,
   is_following_raises_iff reg s user obj,
   is_following_raise_preserves reg s user obj,
   action_handler_raises_iff reg env ujf nt s verb sender kp kd kt ktgt kao krest,
   action_handler_raise_preserves reg env ujf nt s verb sender kp kd kt ktgt kao krest⟩

/-! ### C5, C8, C10: the `action_handler` success path -/

lemma set_role_ok_data {reg : List Nat} {it : Bool} {a : Action} {o? : Option Entity}
    {a' : Action} (h : set_role reg it a o? = Except.ok a') : a'.data = a.data := by
  cases o? with
  | none =>
    simp only [set_role_none, Except.ok.injEq] at h
    subst h
    rfl
  | some t =>
    cases hc : check_actionable_model reg t with
    | error e =>
      simp only [set_role, hc] at h
      exact Except.noConfusion h
    | ok u =>
      cases u
      simp only [set_role, hc] at h
      split at h <;> (simp only [Except.ok.injEq] at h; subst h; rfl)

lemma action_handler_ok_inv (reg : List Nat) (env : Env) (ujf : Bool) (nt : Nat)
    (s : Store) (verb : String) (sender : Entity) (kp : Option Bool)
    (kd : Option String) (kt : Option Nat) (ktgt kao : Option Entity)
    (krest : List (String × String)) (r : HandlerResult)
    (hok : action_handler reg env ujf nt s verb sender kp kd kt ktgt kao krest =
      Except.ok r) :
    ∃ a1 a2,
      set_role reg true (new_action_record verb sender kp kd kt nt) ktgt =
        Except.ok a1 ∧
      set_role reg false a1 kao = Except.ok a2 ∧
      r = { newaction := action_data_attach ujf krest a2
            store := { s with actions := s.actions ++ [action_data_attach ujf krest a2] }
            notify_calls := [action_data_attach ujf krest a2]
            emails := send_email_notifications env
              { s with actions := s.actions ++ [action_data_attach ujf krest a2] }
              (action_data_attach ujf krest a2) } := by
  cases hchk : check_actionable_model reg sender with
  | error e =>
    simp only [action_handler, hchk] at hok
    exact Except.noConfusion hok
  | ok u =>
    cases u
    cases h1 : set_role reg true (new_action_record verb sender kp kd kt nt) ktgt with
    | error e1 =>
      simp only [action_handler, hchk, h1] at hok
      exact Except.noConfusion hok
    | ok a1 =>
      cases h2 : set_role reg false a1 kao with
      | error e2 =>
        simp only [action_handler, hchk, h1, h2] at hok
        exact Except.noConfusion hok
      | ok a2 =>
        simp only [action_handler, hchk, h1, h2, Except.ok.injEq] at hok
        exact ⟨a1, a2, rfl, h2, hok.symm⟩

lemma action_data_attach_data (ujf : Bool) (krest : List (String × String))
    (a : Action) :
    (action_data_attach ujf krest a).data =
      if (ujf && !(krest.filter (fun kv => kv.fst != "signal")).isEmpty) = true
      then some (krest.filter (fun kv => kv.fst != "signal")) else a.data := by
  simp only [action_data_attach]
  split <;> rfl

lemma action_data_attach_roles (ujf : Bool) (krest : List (String × String))
    (a : Action) :
    (action_data_attach ujf krest a).target_object_id = a.target_object_id ∧
    (action_data_attach ujf krest a).target_content_type = a.target_content_type ∧
    (action_data_attach ujf krest a).action_object_object_id = a.action_object_object_id ∧
    (action_data_attach ujf krest a).action_object_content_type = a.action_object_content_type := by
  simp only [action_data_attach]
  refine ⟨?_, ?_, ?_, ?_⟩ <;> (split <;> rfl)

lemma action_handler_ok_data_none (reg : List Nat) (env : Env) (ujf : Bool) (nt : Nat)
    (s : Store) (verb : String) (sender : Entity) (kp : Option Bool)
    (kd : Option String) (kt : Option Nat) (ktgt kao : Option Entity)
    (krest : List (String × String)) (r : HandlerResult)
    (hok : action_handler reg env ujf nt s verb sender kp kd kt ktgt kao krest =
      Except.ok r) :
    r.newaction.data =
      if (ujf && !(krest.filter (fun kv => kv.fst != "signal")).isEmpty) = true
      then some (krest.filter (fun kv => kv.fst != "signal")) else none := by
  obtain ⟨a1, a2, h1, h2, rfl⟩ := action_handler_ok_inv reg env ujf nt s verb sender
    kp kd kt ktgt kao krest r hok
  have hdata2 : a2.data = none := by
    rw [set_role_ok_data h2, set_role_ok_data h1]
    rfl
  have hd := action_data_attach_data ujf krest a2
  rw [hdata2] at hd
  exact hd

/-- C5: `action_handler` with a registered actor and no target /
action_object succeeds; it appends exactly one `Action` row whose two role
reference field pairs are all empty, leaves the `Follow` table unchanged,
and calls `send_email_notifications` exactly once, with the new record. -/
theorem C5_action_handler_no_roles (reg : List Nat) (env : Env) (ujf : Bool)
    (nt : Nat) (s : Store) (verb : String) (actor : Entity) (kp : Option Bool)
    (kd : Option String) (kt : Option Nat) (krest : List (String × String))
    (h : actor.kind ∈ reg) :
    (∃ r, action_handler reg env ujf nt s verb actor kp kd kt none none krest =
      Except.ok r) ∧
    (∀ r, action_handler reg env ujf nt s verb actor kp kd kt none none krest =
        Except.ok r →
      r.store.actions = s.actions ++ [r.newaction] ∧
      r.store.follows = s.follows ∧
      r.newaction.target_object_id = none ∧
      r.newaction.target_content_type = none ∧
      r.newaction.action_object_object_id = none ∧
      r.newaction.action_object_content_type = none ∧
      r.notify_calls = [r.newaction] ∧
      r.emails = send_email_notifications env r.store r.newaction) := by
  have heq : action_handler reg env ujf nt s verb actor kp kd kt none none krest =
      Except.ok
        { newaction := action_data_attach ujf krest
            (new_action_record verb actor kp kd kt nt)
          store := { s with actions := s.actions ++
            [action_data_attach ujf krest (new_action_record verb actor kp kd kt nt)] }
          notify_calls := [action_data_attach ujf krest
            (new_action_record verb actor kp kd kt nt)]
          emails := send_email_notifications env
            { s with actions := s.actions ++
              [action_data_attach ujf krest (new_action_record verb actor kp kd kt nt)] }
            (action_data_attach ujf krest (new_action_record verb actor kp kd kt nt)) } := by
    simp only [action_handler, check_actionable_model_ok h, set_role_none]
  refine ⟨⟨_, heq⟩, ?_⟩
  intro r hok
  rw [heq] at hok
  simp only [Except.ok.injEq] at hok
  subst hok
  obtain ⟨ht1, ht2, ht3, ht4⟩ :=
    action_data_attach_roles ujf krest (new_action_record verb actor kp kd kt nt)
  exact ⟨rfl, rfl, ht1, ht2, ht3, ht4, rfl, rfl⟩

/-- Witness for C5 at a concrete input. -/
theorem C5_action_handler_no_roles_witness :
    (∃ r, action_handler [0] sample_env true 0 { follows := [], actions := [] }
        "v" { kind := 0, pk := 1 } none none none none none [] = Except.ok r) ∧
    (∀ r, action_handler [0] sample_env true 0 { follows := [], actions := [] }
        "v" { kind := 0, pk := 1 } none none none none none [] = Except.ok r →
      r.store.actions = ([] : List Action) ++ [r.newaction] ∧
      r.store.follows = [] ∧
      r.newaction.target_object_id = none ∧
      r.newaction.target_content_type = none ∧
      r.newaction.action_object_object_id = none ∧
      r.newaction.action_object_content_type = none ∧
      r.notify_calls = [r.newaction] ∧
      r.emails = send_email_notifications sample_env r.store r.newaction) :=
  C5_action_handler_no_roles [0] sample_env true 0 { follows := [], actions := [] }
    "v" { kind := 0, pk := 1 } none none none [] (by decide)

/-- C8: the leftover keyword data (minus the popped `signal` key) is stored
on the persisted record as the structured payload if and only if the
`USE_JSONFIELD` flag is on: flag off means no payload; flag on means every
leftover non-`signal` pair is in the payload; and every payload entry comes
from the leftover keyword data. -/
theorem C8_payload_iff_flag (reg : List Nat) (env : Env) (ujf : Bool) (nt : Nat)
    (s : Store) (verb : String) (sender : Entity) (kp : Option Bool)
    (kd : Option String) (kt : Option Nat) (ktgt kao : Option Entity)
    (krest : List (String × String)) (r : HandlerResult)
    (hok : action_handler reg env ujf nt s verb sender kp kd kt ktgt kao krest =
      Except.ok r) :
    (ujf = false → r.newaction.data = none) ∧
    (ujf = true → ∀ kv ∈ krest, kv.fst ≠ "signal" →
      ∃ p, r.newaction.data = some p ∧ kv ∈ p) ∧
    (∀ p, r.newaction.data = some p → ∀ kv ∈ p, kv ∈ krest) := by
  have hd := action_handler_ok_data_none reg env ujf nt s verb sender kp kd kt
    ktgt kao krest r hok
  refine ⟨?_, ?_, ?_⟩
  · intro hu
    subst hu
    rw [hd]
    simp
  · intro hu kv hkv hne
    subst hu
    have hkvf : kv ∈ krest.filter (fun x => x.fst != "signal") :=
      List.mem_filter.mpr ⟨hkv, bne_iff_ne.mpr hne⟩
    have hnonempty : (krest.filter (fun x => x.fst != "signal")).isEmpty = false := by
      cases hfe : krest.filter (fun x => x.fst != "signal") with
      | nil =>
        rw [hfe] at hkvf
        exact absurd hkvf (List.not_mem_nil kv)
      | cons x xs => rfl
    have hcond : (true && !(krest.filter (fun kv => kv.fst != "signal")).isEmpty) = true := by
      rw [hnonempty]
      rfl
    refine ⟨krest.filter (fun x => x.fst != "signal"), ?_, hkvf⟩
    rw [hd, if_pos hcond]
  · intro p hp kv hkvp
    rw [hd] at hp
    by_cases hcond : (ujf && !(krest.filter (fun kv => kv.fst != "signal")).isEmpty) = true
    · rw [if_pos hcond] at hp
      injection hp with hp2
      rw [← hp2] at hkvp
      exact (List.mem_filter.mp hkvp).1
    · rw [if_neg hcond] at hp
      exact Option.noConfusion hp

/-- Witness for C8 at a concrete input with the flag on. -/
theorem C8_payload_iff_flag_witness :
    (true = false →
      ({ actor_content_type := 0, actor_object_id := 1, verb := "v", public := true,
         description := none, timestamp := 0, target_object_id := none,
         target_content_type := none, action_object_object_id := none,
         action_object_content_type := none,
         data := some [("foo", "bar")] } : Action).data = none) ∧
    (true = true → ∀ kv ∈ [("foo", "bar")], kv.fst ≠ "signal" →
      ∃ p, ({ actor_content_type := 0, actor_object_id := 1, verb := "v", public := true,
              description := none, timestamp := 0, target_object_id := none,
              target_content_type := none, action_object_object_id := none,
              action_object_content_type := none,
              data := some [("foo", "bar")] } : Action).data = some p ∧ kv ∈ p) ∧
    (∀ p, ({ actor_content_type := 0, actor_object_id := 1, verb := "v", public := true,
             description := none, timestamp := 0, target_object_id := none,
             target_content_type := none, action_object_object_id := none,
             action_object_content_type := none,
             data := some [("foo", "bar")] } : Action).data = some p →
      ∀ kv ∈ p, kv ∈ [("foo", "bar")]) :=
  C8_payload_iff_flag [0] sample_env true 0 { follows := [], actions := [] } "v"
    { kind := 0, pk := 1 } none none none none none [("foo", "bar")]
    { newaction := { actor_content_type := 0, actor_object_id := 1, verb := "v",
                     public := true, description := none, timestamp := 0,
                     target_object_id := none, target_content_type := none,
                     action_object_object_id := none, action_object_content_type := none,
                     data := some [("foo", "bar")] }
      store := { follows := [],
                 actions := [{ actor_content_type := 0, actor_object_id := 1, verb := "v",
                               public := true, description := none, timestamp := 0,
                               target_object_id := none, target_content_type := none,
                               action_object_object_id := none,
                               action_object_content_type := none,
                               data := some [("foo", "bar")] }] }
      notify_calls := [{ actor_content_type := 0, actor_object_id := 1, verb := "v",
                         public := true, description := none, timestamp := 0,
                         target_object_id := none, target_content_type := none,
                         action_object_object_id := none,
                         action_object_content_type := none,
                         data := some [("foo", "bar")] }]
      emails := [] }
    (by rfl)

/-- C10: the `signal` keyword is popped before the record is built, so no
entry of the stored structured payload has the key `signal`, whatever the
flag and the remaining keyword data. -/
theorem C10_signal_not_in_payload (reg : List Nat) (env : Env) (ujf : Bool)
    (nt : Nat) (s : Store) (verb : String) (sender : Entity) (kp : Option Bool)
    (kd : Option String) (kt : Option Nat) (ktgt kao : Option Entity)
    (krest : List (String × String)) (r : HandlerResult)
    (hok : action_handler reg env ujf nt s verb sender kp kd kt ktgt kao krest =
      Except.ok r)
    (p : List (String × String)) (hp : r.newaction.data = some p) :
    ∀ kv ∈ p, kv.fst ≠ "signal" := by
  have hd := action_handler_ok_data_none reg env ujf nt s verb sender kp kd kt
    ktgt kao krest r hok
  intro kv hkv
  rw [hd] at hp
  by_cases hcond : (ujf && !(krest.filter (fun kv => kv.fst != "signal")).isEmpty) = true
  · rw [if_pos hcond] at hp
    injection hp with hp2
    rw [← hp2] at hkv
    exact bne_iff_ne.mp (List.mem_filter.mp hkv).2
  · rw [if_neg hcond] at hp
    exact Option.noConfusion hp

/-- Witness for C10: a call whose keyword dict contains a `signal` key
succeeds with the payload holding only the other pair, and that pair's key
is not `signal`. -/
theorem C10_signal_not_in_payload_witness :
    (action_handler [0] sample_env true 0 { follows := [], actions := [] }
      "v" { kind := 0, pk := 1 } none none none none none
      [("signal", "x"), ("foo", "bar")] =
      Except.ok
        { newaction := { actor_content_type := 0, actor_object_id := 1, verb := "v",
                         public := true, description := none, timestamp := 0,
                         target_object_id := none, target_content_type := none,
                         action_object_object_id := none, action_object_content_type := none,
                         data := some [("foo", "bar")] }
          store := { follows := [],
                     actions := [{ actor_content_type := 0, actor_object_id := 1, verb := "v",
                                   public := true, description := none, timestamp := 0,
                                   target_object_id := none, target_content_type := none,
                                   action_object_object_id := none,
                                   action_object_content_type := none,
                                   data := some [("foo", "bar")] }] }
          notify_calls := [{ actor_content_type := 0, actor_object_id := 1, verb := "v",
                             public := true, description := none, timestamp := 0,
                             target_object_id := none, target_content_type := none,
                             action_object_object_id := none,
                             action_object_content_type := none,
                             data := some [("foo", "bar")] }]
          emails := [] }) ∧
    Prod.fst ("foo", "bar") ≠ "signal" :=
  ⟨by rfl,
   C10_signal_not_in_payload [0] sample_env true 0 { follows := [], actions := [] }
    "v" { kind := 0, pk := 1 } none none none none none
    [("signal", "x"), ("foo", "bar")]
    { newaction := { actor_content_type := 0, actor_object_id := 1, verb := "v",
                     public := true, description := none, timestamp := 0,
                     target_object_id := none, target_content_type := none,
                     action_object_object_id := none, action_object_content_type := none,
                     data := some [("foo", "bar")] }
      store := { follows := [],
                 actions := [{ actor_content_type := 0, actor_object_id := 1, verb := "v",
                               public := true, description := none, timestamp := 0,
                               target_object_id := none, target_content_type := none,
                               action_object_object_id := none,
                               action_object_content_type := none,
                               data := some [("foo", "bar")] }] }
      notify_calls := [{ actor_content_type := 0, actor_object_id := 1, verb := "v",
                         public := true, description := none, timestamp := 0,
                         target_object_id := none, target_content_type := none,
                         action_object_object_id := none,
                         action_object_content_type := none,
                         data := some [("foo", "bar")] }]
      emails := [] }
    (by rfl) [("foo", "bar")] (by rfl) ("foo", "bar") (by simp)⟩

lemma mem_action_followers {s : Store} {a : Action} {u : Nat} :
    u ∈ action_followers s a ↔
      ∃ f ∈ s.follows, f.user = u ∧ f.contentType = a.actor_content_type ∧
        f.objectId = a.actor_object_id := by
  simp only [action_followers, List.mem_dedup, List.mem_map, List.mem_filter,
    Bool.and_eq_true, beq_iff_eq]
  constructor
  · rintro ⟨f, ⟨hfmem, h1, h2⟩, rfl⟩
    exact ⟨f, hfmem, rfl, h1, h2⟩
  · rintro ⟨f, hfmem, rfl, h1, h2⟩
    exact ⟨f, ⟨hfmem, h1, h2⟩, rfl⟩

lemma nodup_action_followers (s : Store) (a : Action) :
    (action_followers s a).Nodup := by
  unfold action_followers
  exact List.nodup_dedup _

/-- C6: `set_all_email_notifications(user, enable)` sets `send_email` to
`enable` on the user's relationships, row by row, changing nothing else:
same `Follow` table length, same `Action` table, the row at any position
owned by the user gets `sendEmail := enable` (all other fields kept), and a
row owned by any other user is unchanged. -/
theorem C6_set_all_email_notifications (s : Store) (user : Nat) (enable : Bool)
    (i : Nat) (f : Follow) (hf : s.follows[i]? = some f) :
    (set_all_email_notifications s user enable).follows.length = s.follows.length ∧
    (set_all_email_notifications s user enable).actions = s.actions ∧
    (f.user = user →
      (set_all_email_notifications s user enable).follows[i]? =
        some { f with sendEmail := enable }) ∧
    (f.user ≠ user →
      (set_all_email_notifications s user enable).follows[i]? = some f) := by
  refine ⟨by simp [set_all_email_notifications], rfl, ?_, ?_⟩
  · intro hu
    simp only [set_all_email_notifications, List.getElem?_map, hf]
    simp [hu]
  · intro hu
    have hbeq : (f.user == user) = false := beq_eq_false_iff_ne.mpr hu
    simp only [set_all_email_notifications, List.getElem?_map, hf]
    simp [hbeq]
    exact fun hc => absurd hc hu

/-- Witness for C6 at a concrete input. -/
theorem C6_set_all_email_notifications_witness :
    (set_all_email_notifications
        { follows := [{ user := 7, objectId := 1, contentType := 0,
                        actorOnly := true, sendEmail := false },
                      { user := 8, objectId := 1, contentType := 0,
                        actorOnly := true, sendEmail := false }], actions := [] }
        7 true).follows.length =
      ({ follows := [{ user := 7, objectId := 1, contentType := 0,
                       actorOnly := true, sendEmail := false },
                     { user := 8, objectId := 1, contentType := 0,
                       actorOnly := true, sendEmail := false }],
         actions := [] } : Store).follows.length ∧
    (set_all_email_notifications
        { follows := [{ user := 7, objectId := 1, contentType := 0,
                        actorOnly := true, sendEmail := false },
                      { user := 8, objectId := 1, contentType := 0,
                        actorOnly := true, sendEmail := false }], actions := [] }
        7 true).actions = [] ∧
    ((7 : Nat) = 7 →
      (set_all_email_notifications
        { follows := [{ user := 7, objectId := 1, contentType := 0,
                        actorOnly := true, sendEmail := false },
                      { user := 8, objectId := 1, contentType := 0,
                        actorOnly := true, sendEmail := false }], actions := [] }
        7 true).follows[0]? =
        some { user := 7, objectId := 1, contentType := 0,
               actorOnly := true, sendEmail := true }) ∧
    ((7 : Nat) ≠ 7 →
      (set_all_email_notifications
        { follows := [{ user := 7, objectId := 1, contentType := 0,
                        actorOnly := true, sendEmail := false },
                      { user := 8, objectId := 1, contentType := 0,
                        actorOnly := true, sendEmail := false }], actions := [] }
        7 true).follows[0]? =
        some { user := 7, objectId := 1, contentType := 0,
               actorOnly := true, sendEmail := false }) :=
  C6_set_all_email_notifications
    { follows := [{ user := 7, objectId := 1, contentType := 0,
                    actorOnly := true, sendEmail := false },
                  { user := 8, objectId := 1, contentType := 0,
                    actorOnly := true, sendEmail := false }], actions := [] }
    7 true 0
    { user := 7, objectId := 1, contentType := 0, actorOnly := true, sendEmail := false }
    (by rfl)

/-- C7: `send_email_notifications(action)` sends exactly one email to each
user who follows the action actor and whose profile enables email
notification, and to no one else (counted by recipient address, addresses
being distinct per user); every dispatched email carries the right-stripped
rendering of the subject template, the rendering of the body template (both
with the action as context), and the configured from-address. -/
theorem C7_send_email_notifications (env : Env) (s : Store) (a : Action)
    (hinj : ∀ u v : Nat, env.email_addr u = env.email_addr v → u = v) :
    (∀ em ∈ send_email_notifications env s a,
      em.subject = (env.render_subject a).trimRight ∧
      em.body = env.render_body a ∧
      em.from_addr = env.contact_email) ∧
    (∀ u : Nat,
      ((send_email_notifications env s a).filter
        (fun em => em.recipients == [env.email_addr u])).length =
      if (∃ f ∈ s.follows, f.user = u ∧ f.contentType = a.actor_content_type ∧
            f.objectId = a.actor_object_id) ∧ env.email_notification_pref u = true
      then 1 else 0) := by
  constructor
  · intro em hmem
    simp only [send_email_notifications, List.mem_map] at hmem
    obtain ⟨u', hu', rfl⟩ := hmem
    exact ⟨rfl, rfl, rfl⟩
  · intro u
    have hinjb : ∀ x : Nat, (env.email_addr x == env.email_addr u) = (x == u) := by
      intro x
      by_cases hxu : x = u
      · subst hxu
        simp
      · have haddr : env.email_addr x ≠ env.email_addr u :=
          fun hcontra => hxu (hinj x u hcontra)
        simp [hxu, haddr]
    have hmap : (send_email_notifications env s a).filter
        (fun em => em.recipients == [env.email_addr u]) =
      List.map (fun u' =>
          { subject := (env.render_subject a).trimRight
            body := env.render_body a
            from_addr := env.contact_email
            recipients := [env.email_addr u'] })
        (((action_followers s a).filter env.email_notification_pref).filter
          (fun u' => env.email_addr u' == env.email_addr u)) := by
      simp only [send_email_notifications]
      rw [List.filter_map]
      congr 1
      apply List.filter_congr
      intro x hx
      show (([env.email_addr x] : List String) == [env.email_addr u]) =
        (env.email_addr x == env.email_addr u)
      cases hb : env.email_addr x == env.email_addr u
      · have : env.email_addr x ≠ env.email_addr u := by
          intro hcontra
          rw [hcontra] at hb
          simp at hb
        simp [this]
      · have : env.email_addr x = env.email_addr u := by
          simpa using hb
        simp [this]
    rw [hmap, List.length_map]
    have hfil : (((action_followers s a).filter env.email_notification_pref).filter
        (fun u' => env.email_addr u' == env.email_addr u)) =
      (((action_followers s a).filter env.email_notification_pref).filter
        (fun u' => u' == u)) :=
      List.filter_congr (fun x _ => hinjb x)
    rw [hfil, ← List.countP_eq_length_filter, ← List.count_eq_countP]
    have hnodup : ((action_followers s a).filter env.email_notification_pref).Nodup :=
      (nodup_action_followers s a).filter _
    by_cases hu : u ∈ (action_followers s a).filter env.email_notification_pref
    · rw [List.count_eq_one_of_mem hnodup hu]
      obtain ⟨humem, hpref⟩ := List.mem_filter.mp hu
      rw [if_pos ⟨mem_action_followers.mp humem, hpref⟩]
    · rw [List.count_eq_zero_of_not_mem hu]
      rw [if_neg (fun hcondition => hu (List.mem_filter.mpr
        ⟨mem_action_followers.mpr hcondition.1, hcondition.2⟩))]

/-- Witness for C7: one user (7) follows the actor and has notification
enabled; the batch contains exactly one email to that user and none to a
non-follower (8). -/
theorem C7_send_email_notifications_witness :
    (∀ em ∈ send_email_notifications sample_env
        { follows := [{ user := 7, objectId := 1, contentType := 0,
                        actorOnly := true, sendEmail := true }], actions := [] }
        { actor_content_type := 0, actor_object_id := 1, verb := "v", public := true,
          description := none, timestamp := 0, target_object_id := none,
          target_content_type := none, action_object_object_id := none,
          action_object_content_type := none, data := none },
      em.subject = (sample_env.render_subject
          { actor_content_type := 0, actor_object_id := 1, verb := "v", public := true,
            description := none, timestamp := 0, target_object_id := none,
            target_content_type := none, action_object_object_id := none,
            action_object_content_type := none, data := none }).trimRight ∧
      em.body = sample_env.render_body
          { actor_content_type := 0, actor_object_id := 1, verb := "v", public := true,
            description := none, timestamp := 0, target_object_id := none,
            target_content_type := none, action_object_object_id := none,
            action_object_content_type := none, data := none } ∧
      em.from_addr = sample_env.contact_email) ∧
    (∀ u : Nat,
      ((send_email_notifications sample_env
          { follows := [{ user := 7, objectId := 1, contentType := 0,
                          actorOnly := true, sendEmail := true }], actions := [] }
          { actor_content_type := 0, actor_object_id := 1, verb := "v", public := true,
            description := none, timestamp := 0, target_object_id := none,
            target_content_type := none, action_object_object_id := none,
            action_object_content_type := none, data := none }).filter
        (fun em => em.recipients == [sample_env.email_addr u])).length =
      if (∃ f ∈ ({ follows := [{ user := 7, objectId := 1, contentType := 0,
                                 actorOnly := true, sendEmail := true }],
                   actions := [] } : Store).follows,
            f.user = u ∧ f.contentType = 0 ∧ f.objectId = 1) ∧
          sample_env.email_notification_pref u = true
      then 1 else 0) :=
  C7_send_email_notifications sample_env
    { follows := [{ user := 7, objectId := 1, contentType := 0,
                    actorOnly := true, sendEmail := true }], actions := [] }
    { actor_content_type := 0, actor_object_id := 1, verb := "v", public := true,
      description := none, timestamp := 0, target_object_id := none,
      target_content_type := none, action_object_object_id := none,
      action_object_content_type := none, data := none }
    (fun u v h => by
      have h2 := congrArg (fun t => t.data.length) h
      simpa [sample_env] using h2)

end Actstream
